import Mathlib

/-!
Verification of the uap-materials point-cloud viewer core
(`frontend/src/main.js`), shallowly embedded in Lean 4.

Floats (GLSL `float`, JS `number`) are modelled as `ℚ`: every claim below is
about comparisons, control flow and counting, which `ℚ` models exactly for
the representable values involved.  Byte buffers are modelled by their length
together with an abstract `read : ℕ → ℚ` giving the `getFloat32` result at
each byte offset; an out-of-bounds read is an explicit error, as in JS where
`DataView.getFloat32` past the end throws a `RangeError`.
-/

set_option autoImplicit false

namespace UapMaterials

/-- An RGB float triplet, as used for `vec3` colors in the shaders and for
`range.color = [r, g, b]` on the JS side. -/
structure Color where
  r : ℚ
  g : ℚ
  b : ℚ
deriving DecidableEq

/-- One entry of the JS `selectedRanges` array:
`{ min: ..., max: ..., color: [r, g, b] }` (main.js `addSelectedRange`). -/
structure SelectedRange where
  min : ℚ
  max : ℚ
  color : Color
deriving DecidableEq

/-- The per-point visibility test, written identically in the vertex shader
(main.js lines 51-52):

`chargeMassRatio >= minThreshold && chargeMassRatio <= maxThreshold &&
 index >= minIndex && index < maxIndex`

and in `exportToPLY` (line 1472):

`cmr >= minThreshold && cmr <= maxThreshold && idx >= minIndex && idx < maxIndex`. -/
def isVisible (minThreshold maxThreshold minIdx maxIdx cmr idx : ℚ) : Bool :=
  decide (minThreshold ≤ cmr) && decide (cmr ≤ maxThreshold) &&
    decide (minIdx ≤ idx) && decide (idx < maxIdx)

/-- The loop body of the shader function `isPointInSelectedRange`
(main.js lines 39-48): scan the ranges in order; on the first range with
`cmr >= range.x && cmr <= range.y` return its color; otherwise keep scanning.
Returning `none` models the shader returning `false` (out-param unset). -/
def scanRanges : List SelectedRange → ℚ → Option Color
  | [], _ => none
  | rg :: rest, cmr =>
      if rg.min ≤ cmr ∧ cmr ≤ rg.max then some rg.color else scanRanges rest cmr

/-- Shader function `isPointInSelectedRange` loops `for (i = 0; i < 20)`
with `break` once `i >= selectedRangesCount`, over the fixed-size uniform
arrays: only the first (at most) 20 ranges are ever examined. -/
def isPointInSelectedRange (ranges : List SelectedRange) (cmr : ℚ) : Option Color :=
  scanRanges (ranges.take 20) cmr

/-- Spec-side classification: the color of the first range (in insertion
order) whose closed interval `[min, max]` contains the value. -/
def classifySpec (ranges : List SelectedRange) (v : ℚ) : Option Color :=
  (ranges.find? (fun rg => decide (rg.min ≤ v ∧ v ≤ rg.max))).map (fun rg => rg.color)

/-- Claim C1: a record is visible iff `attribute >= minThreshold` and
`attribute <= maxThreshold` and `originalIndex >= minIndex` and
`originalIndex < maxIndex`; the attribute window is closed at both ends and
the index window is half-open at `maxIndex`. -/
theorem visible_iff_window (minThreshold maxThreshold minIdx maxIdx cmr idx : ℚ) :
    isVisible minThreshold maxThreshold minIdx maxIdx cmr idx = true ↔
      (cmr ≥ minThreshold ∧ cmr ≤ maxThreshold ∧ idx ≥ minIdx ∧ idx < maxIdx) := by
  simp [isVisible, ge_iff_le, and_assoc]

/-- Witness for C1 at the boundary examples of the spec: with thresholds
`[10, 20]` and index window `[5, 10)`, attribute 20 at index 9 is visible
while a record at index 10 is not. -/
theorem visible_iff_window_witness :
    isVisible 10 20 5 10 20 9 = true ∧ isVisible 10 20 5 10 15 10 = false :=
  ⟨(visible_iff_window 10 20 5 10 20 9).mpr (by norm_num), by decide⟩

theorem scanRanges_eq_find? (ranges : List SelectedRange) (v : ℚ) :
    scanRanges ranges v =
      (ranges.find? (fun rg => decide (rg.min ≤ v ∧ v ≤ rg.max))).map (fun rg => rg.color) := by
  induction ranges with
  | nil => rfl
  | cons rg rest ih =>
      by_cases h : rg.min ≤ v ∧ v ≤ rg.max
      · simp [scanRanges, List.find?, h]
      · simp [scanRanges, List.find?, h, ih]

/-- Claim C2: for any value and any selection set (which by construction has
at most 20 entries), classification scans the ranges in insertion order and
returns the color of the first range whose closed interval `[min, max]`
contains the value, and `none` when no range contains it; with overlapping
ranges the color of the earlier-inserted range wins. -/
theorem classify_first_match (ranges : List SelectedRange) (v : ℚ)
    (h : ranges.length ≤ 20) :
    isPointInSelectedRange ranges v = classifySpec ranges v := by
  rw [isPointInSelectedRange, scanRanges_eq_find?, List.take_of_length_le h, classifySpec]

/-- Witness for C2, at the example given in the spec: overlapping
`[10,20]` red and `[15,25]` blue, classify `17` returns red (first match). -/
theorem classify_first_match_witness :
    ([SelectedRange.mk 10 20 (Color.mk 1 0 0),
      SelectedRange.mk 15 25 (Color.mk 0 0 1)] : List SelectedRange).length ≤ 20 ∧
    isPointInSelectedRange
      [SelectedRange.mk 10 20 (Color.mk 1 0 0),
       SelectedRange.mk 15 25 (Color.mk 0 0 1)] 17 = some (Color.mk 1 0 0) := by
  refine ⟨by decide, ?_⟩
  rw [classify_first_match _ _ (by decide)]
  decide

/-! ### Binary record decoder (`parsePOS`, main.js lines 200-248) -/

/-- Error raised by `DataView.getFloat32` past the end of the buffer. -/
inductive RangeError where
  | rangeError
deriving DecidableEq

/-- One parsed record: `positions.push(x, y, z)`, `chargeMassRatios.push(cmr)`,
`indices.push(i)` (main.js lines 228-230), gathered into one structure. -/
structure PosRecord where
  x : ℚ
  y : ℚ
  z : ℚ
  chargeMassRatio : ℚ
  originalIndex : ℕ
deriving DecidableEq

/-- Constant `MAX_POINTS = 16_000_000` (main.js line 218). -/
def MAX_POINTS : ℕ := 16000000

/-- Model of `dataView.getFloat32(offset, false)`: reads the 4 bytes at `offset`;
throws a `RangeError` when `offset + 4` exceeds the buffer length.  The
decoded value itself is supplied by the abstract `read` map. -/
def getFloat32 (byteLength : ℕ) (read : ℕ → ℚ) (offset : ℕ) : Except RangeError ℚ :=
  if offset + 4 ≤ byteLength then .ok (read offset) else .error .rangeError

/-- One iteration of the `parsePOS` loop body (main.js lines 222-230):
reads `x, y, z, chargeMassRatio` at offsets `i*16 .. i*16+12` and records the
loop counter `i` as the index. -/
def parseRecord (byteLength : ℕ) (read : ℕ → ℚ) (i : ℕ) : Except RangeError PosRecord := do
  let x ← getFloat32 byteLength read (i * 16)
  let y ← getFloat32 byteLength read (i * 16 + 4)
  let z ← getFloat32 byteLength read (i * 16 + 8)
  let cmr ← getFloat32 byteLength read (i * 16 + 12)
  return PosRecord.mk x y z cmr i

/-- The number of iterations of the JS loop `for (let i = 0; i < bound; i++)`
where `bound` is a JS number (possibly fractional: `numPoints` is
`byteLength / 16` with no flooring).  The loop runs for exactly the naturals
`i` with `(i : ℚ) < bound`, i.e. `⌈bound⌉` of them (see `mem_loopIters`). -/
def loopIters (bound : ℚ) : ℕ := (Int.ceil bound).toNat

theorem mem_loopIters (bound : ℚ) (i : ℕ) : (i : ℚ) < bound ↔ i < loopIters bound := by
  rw [loopIters]
  constructor
  · intro h
    have h1 : (i : ℤ) < Int.ceil bound := Int.lt_ceil.mpr (by exact_mod_cast h)
    omega
  · intro h
    have h1 : (i : ℤ) < Int.ceil bound := by omega
    have h2 := Int.lt_ceil.mp h1
    exact_mod_cast h2

/-- Function `parsePOS` (main.js lines 200-231), the record-decoding part:

`numPoints = buffer.byteLength / 16` — JS division, NOT floored;
`numPointsToLoad = Math.min(numPoints, MAX_POINTS)`;
`for (let i = 0; i < numPointsToLoad; i++)` decode one record per iteration,
aborting with the thrown `RangeError` if a `getFloat32` goes out of bounds. -/
def parsePOS (byteLength : ℕ) (read : ℕ → ℚ) : Except RangeError (List PosRecord) :=
  (List.range (loopIters (min ((byteLength : ℚ) / 16) (MAX_POINTS : ℚ)))).mapM
    (parseRecord byteLength read)

/-- Claim C3 (the code-bug evaluation): on a 56-byte buffer (3.5 records) the
decoder does not return 3 records — the loop bound is `56 / 16 = 3.5`, the
iteration `i = 3` runs, and `getFloat32` at offset 56 reads past the end of
the buffer and throws, whatever the buffer contents are. -/
theorem parsePOS_half_record_throws (read : ℕ → ℚ) :
    parsePOS 56 read = .error .rangeError := by
  have hload : min (((56 : ℕ) : ℚ) / 16) ((MAX_POINTS : ℕ) : ℚ) = 7 / 2 := by
    rw [min_eq_left (by norm_num [MAX_POINTS])]
    norm_num
  have hceil : Int.ceil ((7 : ℚ) / 2) = 4 := by
    rw [Int.ceil_eq_iff]
    norm_num
  have hiters : loopIters (min (((56 : ℕ) : ℚ) / 16) ((MAX_POINTS : ℕ) : ℚ)) = 4 := by
    rw [hload, loopIters, hceil]
    rfl
  rw [parsePOS, hiters]
  rfl

/-- A `mapM` over `Except` succeeds elementwise when every element succeeds. -/
theorem mapM_ok {α β ε : Type} (f : α → Except ε β) (g : α → β) (l : List α)
    (h : ∀ a ∈ l, f a = .ok (g a)) : l.mapM f = .ok (l.map g) := by
  induction l with
  | nil => rfl
  | cons a t ih =>
      rw [List.mapM_cons, h a (List.mem_cons_self a t),
        ih (fun b hb => h b (List.mem_cons_of_mem a hb))]
      rfl

theorem parseRecord_ok (byteLength : ℕ) (read : ℕ → ℚ) (i : ℕ)
    (h : i * 16 + 16 ≤ byteLength) :
    parseRecord byteLength read i =
      .ok (PosRecord.mk (read (i * 16)) (read (i * 16 + 4)) (read (i * 16 + 8))
             (read (i * 16 + 12)) i) := by
  rw [parseRecord]
  rw [getFloat32, if_pos (by omega), getFloat32, if_pos (by omega),
    getFloat32, if_pos (by omega), getFloat32, if_pos (by omega)]
  rfl

/-- Claim C4: on any buffer holding more than `MAX_POINTS = 16_000_000`
complete records (byte length at least `16 * (MAX_POINTS + 1)`), the decoder
succeeds and decodes exactly the first `MAX_POINTS` records in stream order,
the `j`-th decoded record carrying `originalIndex = j`. -/
theorem parsePOS_cap (byteLength : ℕ) (read : ℕ → ℚ)
    (h : 16 * (MAX_POINTS + 1) ≤ byteLength) :
    ∃ l, parsePOS byteLength read = .ok l ∧ l.length = MAX_POINTS ∧
      ∀ j, ∀ hj : j < l.length, (l.get ⟨j, hj⟩).originalIndex = j := by
  have hmin : min ((byteLength : ℚ) / 16) (MAX_POINTS : ℚ) = (MAX_POINTS : ℚ) := by
    rw [min_eq_right]
    rw [le_div_iff₀ (by norm_num : (0 : ℚ) < 16)]
    have : ((16 * (MAX_POINTS + 1) : ℕ) : ℚ) ≤ (byteLength : ℚ) := by exact_mod_cast h
    push_cast at this
    linarith
  have hiters : loopIters (min ((byteLength : ℚ) / 16) (MAX_POINTS : ℚ)) = MAX_POINTS := by
    rw [hmin, loopIters, Int.ceil_natCast, Int.toNat_natCast]
  refine ⟨(List.range MAX_POINTS).map (fun i =>
      PosRecord.mk (read (i * 16)) (read (i * 16 + 4)) (read (i * 16 + 8))
        (read (i * 16 + 12)) i), ?_, ?_, ?_⟩
  · rw [parsePOS, hiters]
    exact mapM_ok _ _ _ (fun i hi => by
      have hilt : i < MAX_POINTS := List.mem_range.mp hi
      exact parseRecord_ok byteLength read i (by omega))
  · simp
  · intro j hj
    simp

/-- Witness for C4 at a buffer of exactly `MAX_POINTS + 1` complete records. -/
theorem parsePOS_cap_witness :
    16 * (MAX_POINTS + 1) ≤ 16 * (MAX_POINTS + 1) ∧
    ∃ l, parsePOS (16 * (MAX_POINTS + 1)) (fun _ => 0) = .ok l ∧
      l.length = MAX_POINTS ∧
      ∀ j, ∀ hj : j < l.length, (l.get ⟨j, hj⟩).originalIndex = j :=
  ⟨le_refl _, parsePOS_cap (16 * (MAX_POINTS + 1)) (fun _ => 0) (le_refl _)⟩

/-! ### Module state and the file-load path (main.js lines 166-259, 863-981, 1164-1206) -/

/-- The module-level mutable state touched by the load path, together with
the uniforms of the freshly created point cloud (`createPointCloud`,
main.js lines 1176-1186). -/
structure AppState where
  totalPoints : ℕ
  minIndex : ℕ
  indexRange : ℕ
  selectedRanges : List SelectedRange
  filteredPointClouds : List (ℚ × ℚ × Color)
  globalChargeMassRatios : List ℚ
  uniformMinThreshold : ℚ
  uniformMaxThreshold : ℚ
  uniformMinIndex : ℕ
  uniformMaxIndex : ℕ
  uniformSelectedRangesCount : ℕ
deriving DecidableEq

/-- The state transition of a successful file load
(`handleDrop` → `parsePOS` → `clearFilteredPointClouds` → `createPointCloud`),
for a buffer of exactly `cmrs.length ≤ MAX_POINTS` complete records:
- `totalPoints = numPoints` (line 207);
- `updateSliderMaxValues` (lines 953-977, invoked via `window.updateIndexSliders`
  at line 211): `indexRange` is set to the new total (lines 962-964) and
  `minIndex` is zeroed only when the slider value exceeds the new total
  (lines 967-971);
- the global data arrays are replaced (lines 237-239);
- `clearFilteredPointClouds` empties `filteredPointClouds` (lines 251-259);
- `createPointCloud` installs fresh uniforms: `minThreshold 0`,
  `maxThreshold 200`, `minIndex`, `maxIndex = minIndex + indexRange`,
  `selectedRangesCount 0` (lines 1178-1183).
No statement on this path assigns to `selectedRanges` (it is emptied only by
`clearSelection`, line 1059). -/
def loadFile (s : AppState) (cmrs : List ℚ) : AppState :=
  let n := cmrs.length
  let newMinIndex := if n < s.minIndex then 0 else s.minIndex
  { totalPoints := n
    minIndex := newMinIndex
    indexRange := n
    selectedRanges := s.selectedRanges
    filteredPointClouds := []
    globalChargeMassRatios := cmrs
    uniformMinThreshold := 0
    uniformMaxThreshold := 200
    uniformMinIndex := newMinIndex
    uniformMaxIndex := newMinIndex + n
    uniformSelectedRangesCount := 0 }

/-- A state as it may stand before a load: one selected range, `minIndex = 1`. -/
def preLoadState : AppState :=
  { totalPoints := 500
    minIndex := 1
    indexRange := 499
    selectedRanges := [SelectedRange.mk 10 20 (Color.mk 1 0 0)]
    filteredPointClouds := []
    globalChargeMassRatios := []
    uniformMinThreshold := 0
    uniformMaxThreshold := 200
    uniformMinIndex := 1
    uniformMaxIndex := 500
    uniformSelectedRangesCount := 1 }

/-- Counterexample to claim C5 as stated: after loading a fresh 3-record file
into `preLoadState`, the Range Selection Set is NOT empty (the load path never
clears `selectedRanges`), and the index window is NOT reset to the full range
(`minIndex` stays 1, hiding record 0). -/
theorem load_counterexample :
    (loadFile preLoadState [5, 50, 80]).selectedRanges =
        [SelectedRange.mk 10 20 (Color.mk 1 0 0)] ∧
    (loadFile preLoadState [5, 50, 80]).uniformMinIndex = 1 ∧
    ¬ ((loadFile preLoadState [5, 50, 80]).selectedRanges = []) := by
  decide

/-- Claim C5 amended: loading a new file replaces the Dataset
(`globalChargeMassRatios`), clears the filtered point clouds, resets the
index-range length to the new total count and gives the new point cloud
zero selected-range uniforms and the full attribute window `[0, 200]`;
but the Range Selection Set persists unchanged across the load, and
`minIndex` is zeroed only when it exceeds the new total count — the
visibility window is not in general reset to the full index range. -/
theorem load_effects (s : AppState) (cmrs : List ℚ) :
    (loadFile s cmrs).totalPoints = cmrs.length ∧
    (loadFile s cmrs).globalChargeMassRatios = cmrs ∧
    (loadFile s cmrs).indexRange = cmrs.length ∧
    (loadFile s cmrs).filteredPointClouds = [] ∧
    (loadFile s cmrs).uniformSelectedRangesCount = 0 ∧
    (loadFile s cmrs).uniformMinThreshold = 0 ∧
    (loadFile s cmrs).uniformMaxThreshold = 200 ∧
    (loadFile s cmrs).selectedRanges = s.selectedRanges ∧
    (loadFile s cmrs).minIndex =
      (if cmrs.length < s.minIndex then 0 else s.minIndex) ∧
    (loadFile s cmrs).uniformMinIndex = (loadFile s cmrs).minIndex ∧
    (loadFile s cmrs).uniformMaxIndex = (loadFile s cmrs).minIndex + cmrs.length :=
  ⟨rfl, rfl, rfl, rfl, rfl, rfl, rfl, rfl, rfl, rfl, rfl⟩

/-! ### Threshold slider pair (main.js lines 731-903) -/

/-- The two threshold slider values: `minSlider` (lines 752-759, initial 0)
and `rangeSlider` (lines 776-783, initial 200); both DOM sliders have
`min = 0`, `max = 200`.  The shader thresholds are derived as
`minThreshold = minValue`, `maxThreshold = minValue + rangeValue`
(lines 876-877 and 897-898). -/
structure ThresholdSliders where
  minValue : ℚ
  rangeValue : ℚ
deriving DecidableEq

/-- The `minSlider` input handler (main.js lines 863-882): display the new min;
if `minValue + rangeValue > 200` clamp the range slider to `200 - minValue`. -/
def onMinSliderInput (s : ThresholdSliders) (v : ℚ) : ThresholdSliders :=
  { minValue := v
    rangeValue := if 200 < v + s.rangeValue then 200 - v else s.rangeValue }

/-- The `rangeSlider` input handler (main.js lines 884-903): display the new
range; if `minValue + rangeValue > 200` clamp the min slider to `200 - rangeValue`. -/
def onRangeSliderInput (s : ThresholdSliders) (r : ℚ) : ThresholdSliders :=
  { minValue := if 200 < s.minValue + r then 200 - r else s.minValue
    rangeValue := r }

def minThreshold (s : ThresholdSliders) : ℚ := s.minValue

def maxThreshold (s : ThresholdSliders) : ℚ := s.minValue + s.rangeValue

/-- Each DOM slider only ever holds a value within its `[0, 200]` bounds. -/
def SliderWF (s : ThresholdSliders) : Prop :=
  0 ≤ s.minValue ∧ s.minValue ≤ 200 ∧ 0 ≤ s.rangeValue ∧ s.rangeValue ≤ 200

/-- Counterexample to claim C6 as stated: moving the min slider to 150 (a
legal slider position) from the initial state yields
`minThreshold = 150 > 120` — the pair is NOT kept within `[0, 120]`. -/
theorem threshold_exceeds_120 :
    (0 : ℚ) ≤ 150 ∧ (150 : ℚ) ≤ 200 ∧
    ¬ (minThreshold (onMinSliderInput (ThresholdSliders.mk 0 200) 150) ≤ 120 ∧
       maxThreshold (onMinSliderInput (ThresholdSliders.mk 0 200) 150) ≤ 120) := by
  decide

/-- Claim C6 amended: after an edit to either bound of the threshold pair,
`minThreshold ≤ maxThreshold` holds with both values within `[0, 200]` — the
slider ceiling, not `DOMAIN_MAX = 120` — the other bound being clamped down
(not rejected) when an edit would push the sum of the pair over 200, symmetrically
for either slider. -/
theorem threshold_clamp_invariant (s : ThresholdSliders) (v : ℚ)
    (hs : SliderWF s) (hv : 0 ≤ v ∧ v ≤ 200) :
    (SliderWF (onMinSliderInput s v) ∧
      0 ≤ minThreshold (onMinSliderInput s v) ∧
      minThreshold (onMinSliderInput s v) ≤ maxThreshold (onMinSliderInput s v) ∧
      maxThreshold (onMinSliderInput s v) ≤ 200) ∧
    (SliderWF (onRangeSliderInput s v) ∧
      0 ≤ minThreshold (onRangeSliderInput s v) ∧
      minThreshold (onRangeSliderInput s v) ≤ maxThreshold (onRangeSliderInput s v) ∧
      maxThreshold (onRangeSliderInput s v) ≤ 200) := by
  obtain ⟨hv0, hv200⟩ := hv
  obtain ⟨h1, h2, h3, h4⟩ := hs
  simp only [onMinSliderInput, onRangeSliderInput, minThreshold, maxThreshold, SliderWF]
  constructor
  · split_ifs with hA <;> refine ⟨⟨?_, ?_, ?_, ?_⟩, ?_, ?_, ?_⟩ <;> linarith
  · split_ifs with hB <;> refine ⟨⟨?_, ?_, ?_, ?_⟩, ?_, ?_, ?_⟩ <;> linarith

/-- Witness for the amended C6, at the initial sliders and the edit `min := 150`. -/
theorem threshold_clamp_invariant_witness :
    SliderWF (ThresholdSliders.mk 0 200) ∧
    minThreshold (onMinSliderInput (ThresholdSliders.mk 0 200) 150) ≤
      maxThreshold (onMinSliderInput (ThresholdSliders.mk 0 200) 150) ∧
    maxThreshold (onMinSliderInput (ThresholdSliders.mk 0 200) 150) ≤ 200 :=
  ⟨by unfold SliderWF; decide,
    ((threshold_clamp_invariant (ThresholdSliders.mk 0 200) 150
        (by unfold SliderWF; decide) (by decide)).1).2.2.1,
    ((threshold_clamp_invariant (ThresholdSliders.mk 0 200) 150
        (by unfold SliderWF; decide) (by decide)).1).2.2.2⟩

/-! ### Range Selection Set (`addSelectedRange`, main.js lines 1128-1162) -/

/-- The 20-range cap being hit: an `alert` reporting that the maximum
number of selections (20) is reached, followed by an early return. -/
inductive SelectionError where
  | selectionFull
deriving DecidableEq

/-- Palette `d3.schemeCategory10`, the fixed 10 hues, as hex RGB values. -/
def schemeCategory10 : List ℕ :=
  [0x1f77b4, 0xff7f0e, 0x2ca02c, 0xd62728, 0x9467bd,
   0x8c564b, 0xe377c2, 0x7f7f7f, 0xbcbd22, 0x17becf]

/-- The color assigned to the `k`-th added range:
`new THREE.Color(d3.schemeCategory10[k % 10])` unpacked to float components
(each byte of the hex value over 255). -/
def paletteColor (k : ℕ) : Color :=
  let h := schemeCategory10.getD (k % 10) 0
  Color.mk (((h / 65536 % 256 : ℕ) : ℚ) / 255) (((h / 256 % 256 : ℕ) : ℚ) / 255)
    (((h % 256 : ℕ) : ℚ) / 255)

/-- Function `addSelectedRange(min, max)` (main.js lines 1129-1145), restricted to its
effect on the `selectedRanges` array: reject once 20 ranges exist
(lines 1131-1134, no mutation); otherwise take the color
`d3.schemeCategory10[selectedRanges.length % 10]` (line 1137) and push
`{min, max, color}` (lines 1141-1145). -/
def addSelectedRange (ranges : List SelectedRange) (mn mx : ℚ) :
    Except SelectionError (List SelectedRange) :=
  if 20 ≤ ranges.length then .error .selectionFull
  else .ok (ranges ++ [SelectedRange.mk mn mx (paletteColor ranges.length)])

/-- Claim C7: with 20 ranges already present, `addSelectedRange` is rejected
with `SelectionFull` and leaves the set unchanged; below the cap it appends
the new range colored by the deterministic palette at position
`length % 10`, which cycles with period 10. -/
theorem addRange_cap (ranges : List SelectedRange) (mn mx : ℚ) :
    (20 ≤ ranges.length → addSelectedRange ranges mn mx = .error .selectionFull) ∧
    (ranges.length < 20 →
      addSelectedRange ranges mn mx =
        .ok (ranges ++ [SelectedRange.mk mn mx (paletteColor ranges.length)])) ∧
    (∀ k : ℕ, paletteColor (k + 10) = paletteColor k) := by
  refine ⟨fun h => ?_, fun h => ?_, fun k => ?_⟩
  · rw [addSelectedRange, if_pos h]
  · rw [addSelectedRange, if_neg (by omega)]
  · simp [paletteColor, Nat.add_mod_right]

/-- Witness for C7: the 21st add onto a full 20-entry set fails, while an add
onto a 3-entry set appends with the 4th palette color. -/
theorem addRange_cap_witness :
    (20 ≤ (List.replicate 20 (SelectedRange.mk 0 1 (Color.mk 1 0 0))).length ∧
      addSelectedRange (List.replicate 20 (SelectedRange.mk 0 1 (Color.mk 1 0 0))) 0 1 =
        .error .selectionFull) ∧
    ((List.replicate 3 (SelectedRange.mk 0 1 (Color.mk 1 0 0))).length < 20 ∧
      addSelectedRange (List.replicate 3 (SelectedRange.mk 0 1 (Color.mk 1 0 0))) 2 5 =
        .ok (List.replicate 3 (SelectedRange.mk 0 1 (Color.mk 1 0 0)) ++
          [SelectedRange.mk 2 5 (paletteColor 3)])) :=
  ⟨⟨by decide, (addRange_cap _ 0 1).1 (by decide)⟩,
   ⟨by decide, (addRange_cap _ 2 5).2.1 (by decide)⟩⟩

/-! ### Histogram binning (main.js lines 379-383)

The call is `d3.histogram().domain([0, 120]).thresholds(1200)` applied to
`globalChargeMassRatios`; the binning itself happens inside the d3 library,
which is not part of the sources of this repository. -/

/-- Modelled from the spec: the binning rule of `d3.histogram` with domain
`[0, 120]` and 1200 thresholds, whose implementation (the d3-array library)
is not under src/.  Per the spec: bin width is
`(domainMax - domainMin) / binCount`; bin `i` covers
`[domainMin + i*width, domainMin + (i+1)*width)`, the upper bound of the
last bin being closed; a value outside the domain contributes to no bin. -/
def binWidth : ℚ := (120 - 0) / 1200

/-- Whether value `v` falls into bin `i` of the 1200 bins over `[0, 120]`
(membership per the rule of the spec quoted at `binWidth`). -/
def inBin (i : ℕ) (v : ℚ) : Bool :=
  decide (0 + (i : ℚ) * binWidth ≤ v) &&
    (if i = 1199 then decide (v ≤ 120)
     else decide (v < 0 + ((i : ℚ) + 1) * binWidth))

/-- The count of bin `i` for a list of attribute values. -/
def histCount (values : List ℚ) (i : ℕ) : ℕ :=
  (values.filter (fun v => inBin i v)).length

/-- Claim C8: 1200 fixed-width bins of width 0.1 over `[0, 120]`; bin `i`
covers `[i*0.1, (i+1)*0.1)` with the last bin closed at 120; a value outside
the domain lands in no bin; for values `[1.0, 1.0, 119.9]`, bin 10 has count
2 and the last bin has count 1. -/
theorem histogram_bins :
    binWidth = 1 / 10 ∧
    (∀ i : ℕ, ∀ v : ℚ, i < 1199 →
      (inBin i v = true ↔ (i : ℚ) * (1 / 10) ≤ v ∧ v < ((i : ℚ) + 1) * (1 / 10))) ∧
    (∀ v : ℚ, inBin 1199 v = true ↔ (1199 : ℚ) / 10 ≤ v ∧ v ≤ 120) ∧
    (∀ i : ℕ, ∀ v : ℚ, i < 1200 → (v < 0 ∨ 120 < v) → inBin i v = false) ∧
    histCount [1, 1, 1199 / 10] 10 = 2 ∧
    histCount [1, 1, 1199 / 10] 1199 = 1 := by
  have hw : binWidth = 1 / 10 := by norm_num [binWidth]
  have hb10one : inBin 10 (1 : ℚ) = true := by
    rw [inBin, if_neg (by norm_num)]
    norm_num [hw]
  have hb10last : inBin 10 ((1199 : ℚ) / 10) = false := by
    rw [inBin, if_neg (by norm_num)]
    norm_num [hw]
  have hb1199one : inBin 1199 (1 : ℚ) = false := by
    rw [inBin, if_pos rfl]
    norm_num [hw]
  have hb1199last : inBin 1199 ((1199 : ℚ) / 10) = true := by
    rw [inBin, if_pos rfl]
    norm_num [hw]
  refine ⟨hw, fun i v hi => ?_, fun v => ?_, fun i v hi hout => ?_,
    by simp [histCount, List.filter, hb10one, hb10last],
    by simp [histCount, List.filter, hb1199one, hb1199last]⟩
  · rw [inBin, if_neg (by omega)]
    simp [hw]
  · rw [inBin, if_pos rfl]
    simp [hw]
    intro _
    constructor <;> intro h <;> linarith
  · rw [inBin]
    have hpos : (0 : ℚ) ≤ (i : ℚ) * binWidth := by
      have : (0 : ℚ) ≤ (i : ℚ) := Nat.cast_nonneg i
      rw [hw]; positivity
    rcases hout with hlt | hgt
    · simp only [Bool.and_eq_false_iff, decide_eq_false_iff_not]
      left
      intro hcontra
      linarith
    · split_ifs with h1199
      · simp only [Bool.and_eq_false_iff, decide_eq_false_iff_not]
        right
        intro hcontra
        linarith
      · simp only [Bool.and_eq_false_iff, decide_eq_false_iff_not]
        right
        intro hcontra
        have hle : ((i : ℚ) + 1) * binWidth ≤ 120 := by
          rw [hw]
          have hcast : (i : ℚ) ≤ 1199 := by exact_mod_cast (by omega : i ≤ 1199)
          linarith
        linarith

/-- Witness for C8: value 1 lands in bin 10 (covering `[1.0, 1.1)`), value
121 lies outside the domain and lands in no bin. -/
theorem histogram_bins_witness :
    (10 < 1199 ∧ inBin 10 (1 : ℚ) = true) ∧
    (5 < 1200 ∧ ((121 : ℚ) < 0 ∨ (120 : ℚ) < 121) ∧ inBin 5 (121 : ℚ) = false) := by
  refine ⟨⟨by decide, ?_⟩, ⟨by decide, Or.inr (by norm_num), ?_⟩⟩
  · exact (histogram_bins.2.1 10 1 (by decide)).mpr (by norm_num)
  · exact histogram_bins.2.2.2.1 5 121 (by decide) (Or.inr (by norm_num))

/-! ### PLY export (`exportToPLY`, main.js lines 1445-1515) -/

/-- The early return that reports no visible points to export. -/
inductive ExportError where
  | noVisiblePoints
deriving DecidableEq

/-- The exported content: the `element vertex <n>` header count and one
`x y z cmr` row per visible record (the fixed header text around them is
constant). -/
structure PLYFile where
  vertexCount : ℕ
  rows : List (ℚ × ℚ × ℚ × ℚ)
deriving DecidableEq

/-- The visibility-counting loop of `exportToPLY` (main.js lines 1464-1476):
for each `i` below `chargeMassRatios.length`, test the same window predicate
as the shader and collect the passing positions `i`. -/
def visibleIndices (cmrs indices : List ℚ) (minT maxT minI maxI : ℚ) : List ℕ :=
  (List.range cmrs.length).filter
    (fun i => isVisible minT maxT minI maxI (cmrs.getD i 0) (indices.getD i 0))

/-- Function `exportToPLY` after a point cloud is loaded (main.js lines 1451-1515):
count the visible records; if none, report and produce no file
(lines 1478-1481); otherwise emit the header with the visible count and one
data row per visible record (lines 1483-1501). -/
def exportToPLY (positions cmrs indices : List ℚ) (minT maxT minI maxI : ℚ) :
    Except ExportError PLYFile :=
  let vis := visibleIndices cmrs indices minT maxT minI maxI
  if vis.length = 0 then .error .noVisiblePoints
  else
    .ok { vertexCount := vis.length
          rows := vis.map (fun i =>
            (positions.getD (i * 3) 0, positions.getD (i * 3 + 1) 0,
             positions.getD (i * 3 + 2) 0, cmrs.getD i 0)) }

/-- Claim C9: with zero visible records the export reports
`noVisiblePoints` and produces no file; with at least one visible record it
produces a file whose vertex count is the (positive) number of visible
records. -/
theorem export_guard (positions cmrs indices : List ℚ) (minT maxT minI maxI : ℚ) :
    (visibleIndices cmrs indices minT maxT minI maxI = [] →
      exportToPLY positions cmrs indices minT maxT minI maxI =
        .error .noVisiblePoints) ∧
    (visibleIndices cmrs indices minT maxT minI maxI ≠ [] →
      ∃ f, exportToPLY positions cmrs indices minT maxT minI maxI = .ok f ∧
        f.vertexCount = (visibleIndices cmrs indices minT maxT minI maxI).length ∧
        0 < f.vertexCount) := by
  constructor
  · intro h
    rw [exportToPLY]
    simp [h]
  · intro h
    have hlen : (visibleIndices cmrs indices minT maxT minI maxI).length ≠ 0 :=
      fun hc => h (List.length_eq_zero.mp hc)
    rw [exportToPLY]
    simp only [hlen, if_neg hlen]
    exact ⟨_, rfl, rfl, Nat.pos_of_ne_zero hlen⟩

/-- Witness for C9: an empty dataset exports to an error; a 1-record dataset
fully inside the default window exports to a 1-vertex file. -/
theorem export_guard_witness :
    (visibleIndices [] [] 0 200 0 10 = [] ∧
      exportToPLY [] [] [] 0 200 0 10 = .error .noVisiblePoints) ∧
    (visibleIndices [5] [0] 0 200 0 10 ≠ [] ∧
      ∃ f, exportToPLY [1, 2, 3] [5] [0] 0 200 0 10 = .ok f ∧
        f.vertexCount = (visibleIndices [5] [0] 0 200 0 10).length ∧
        0 < f.vertexCount) :=
  ⟨⟨rfl, (export_guard [] [] [] 0 200 0 10).1 rfl⟩,
   ⟨by decide, (export_guard [1, 2, 3] [5] [0] 0 200 0 10).2 (by decide)⟩⟩

/-! ### Shader classification and discard (main.js lines 50-82) -/

/-- The vertex shader `main` (main.js lines 50-65): a visible point gets its
first matching selected-range color, or white `vec3(1.0)` when no range
matches; a non-visible point gets `vec3(0.0)`. -/
def vertexColor (minT maxT minI maxI : ℚ) (ranges : List SelectedRange)
    (cmr idx : ℚ) : Color :=
  if isVisible minT maxT minI maxI cmr idx then
    match isPointInSelectedRange ranges cmr with
    | some c => c
    | none => Color.mk 1 1 1
  else Color.mk 0 0 0

/-- The fragment shader (main.js lines 73-82): `if (vColor.r == 0.0) discard`. -/
def fragmentDiscards (c : Color) : Bool := decide (c.r = 0)

/-- Whether the renderer drops the point: the fragment test applied to the
vertex-shader color. -/
def pointDiscarded (minT maxT minI maxI : ℚ) (ranges : List SelectedRange)
    (cmr idx : ℚ) : Bool :=
  fragmentDiscards (vertexColor minT maxT minI maxI ranges cmr idx)

/-- Claim C10: a point is discarded iff the red component of its computed
color is zero; non-visible points get color `(0,0,0)` and are discarded; a
visible point whose first matching range color has red component 0 is also
discarded despite being visible; a visible point matching no range gets
white `(1,1,1)` and is drawn. -/
theorem discard_rule (minT maxT minI maxI : ℚ) (ranges : List SelectedRange)
    (cmr idx : ℚ) :
    (pointDiscarded minT maxT minI maxI ranges cmr idx = true ↔
      (vertexColor minT maxT minI maxI ranges cmr idx).r = 0) ∧
    (isVisible minT maxT minI maxI cmr idx = false →
      vertexColor minT maxT minI maxI ranges cmr idx = Color.mk 0 0 0 ∧
      pointDiscarded minT maxT minI maxI ranges cmr idx = true) ∧
    (∀ c : Color, isVisible minT maxT minI maxI cmr idx = true →
      isPointInSelectedRange ranges cmr = some c → c.r = 0 →
      pointDiscarded minT maxT minI maxI ranges cmr idx = true) ∧
    (isVisible minT maxT minI maxI cmr idx = true →
      isPointInSelectedRange ranges cmr = none →
      vertexColor minT maxT minI maxI ranges cmr idx = Color.mk 1 1 1 ∧
      pointDiscarded minT maxT minI maxI ranges cmr idx = false) := by
  refine ⟨?_, fun h => ?_, fun c hvis hmatch hr => ?_, fun hvis hnone => ?_⟩
  · simp [pointDiscarded, fragmentDiscards]
  · simp [vertexColor, pointDiscarded, fragmentDiscards, h]
  · simp [pointDiscarded, vertexColor, fragmentDiscards, hvis, hmatch, hr]
  · refine ⟨?_, ?_⟩ <;> simp [vertexColor, pointDiscarded, fragmentDiscards, hvis, hnone]

/-- Witness for C10, window `[0,200] × [0,10)`: an out-of-window point
(`cmr = 300`) is discarded; a visible point first matching a range colored
`(0,0,1)` (red component 0) is discarded despite being visible; a visible
point matching no range is drawn white. -/
theorem discard_rule_witness :
    (isVisible 0 200 0 10 300 0 = false ∧
      pointDiscarded 0 200 0 10 [] 300 0 = true) ∧
    (isVisible 0 200 0 10 5 0 = true ∧
      isPointInSelectedRange [SelectedRange.mk 4 6 (Color.mk 0 0 1)] 5 =
        some (Color.mk 0 0 1) ∧
      pointDiscarded 0 200 0 10 [SelectedRange.mk 4 6 (Color.mk 0 0 1)] 5 0 = true) ∧
    (isVisible 0 200 0 10 5 0 = true ∧
      isPointInSelectedRange [] 5 = none ∧
      vertexColor 0 200 0 10 [] 5 0 = Color.mk 1 1 1 ∧
      pointDiscarded 0 200 0 10 [] 5 0 = false) :=
  ⟨⟨by decide, ((discard_rule 0 200 0 10 [] 300 0).2.1 (by decide)).2⟩,
   ⟨by decide, by decide,
     (discard_rule 0 200 0 10 [SelectedRange.mk 4 6 (Color.mk 0 0 1)] 5 0).2.2.1
       (Color.mk 0 0 1) (by decide) (by decide) (by decide)⟩,
   ⟨by decide, by decide,
     ((discard_rule 0 200 0 10 [] 5 0).2.2.2 (by decide) (by decide)).1,
     ((discard_rule 0 200 0 10 [] 5 0).2.2.2 (by decide) (by decide)).2⟩⟩

end UapMaterials
